import Mathlib

/-!
# Verification of the InveSim game-play component

Shallow embedding of the event handlers of `src/app/game/play/page.tsx`.
Monetary quantities and JS numbers are modelled as rationals (`ℚ`).
Handlers do not mutate the store themselves: they validate and then
dispatch actions into the external game-state store, so each handler is
embedded as a function from a snapshot of the store state to either a
validation error (shown as a toast) or the list of dispatched actions.
-/

namespace InveSim

/-- A priced instrument (stock, crypto or real-estate entry) as read from the
store maps `stocks` / `cryptos` / `realEstates`: a display name and a live
current price. -/
structure PricedInstrument where
  name : String
  currentPrice : ℚ
  deriving DecidableEq, Repr

/-- Event type tag of a `GameEvent` (income or expense). -/
inductive EventType where
  | income
  | expense
  deriving DecidableEq, Repr

/-- A game event as consumed by the component: a type tag and a cost
(positive magnitude; the sign is conveyed by the tag). -/
structure GameEvent where
  eventType : EventType
  title : String
  cost : ℚ
  deriving DecidableEq, Repr

/-- Snapshot of the store state read by the component.  The TS store maps
(`investments`, `investmentProfits`, quantity maps) are accessed with
`m[k] || 0`, so they are embedded as total functions defaulting to `0`;
the instrument maps are accessed with an existence check, so they are
`Option`-valued. -/
structure GameState where
  cash : ℚ
  investments : String → ℚ
  investmentProfits : String → ℚ
  stocks : String → Option PricedInstrument
  cryptos : String → Option PricedInstrument
  realEstates : String → Option PricedInstrument
  stockQuantities : String → ℚ
  cryptoQuantities : String → ℚ
  realEstateQuantities : String → ℚ
  currentEvent : Option GameEvent

/-- Store actions a handler may dispatch. -/
inductive Action where
  | invest (asset : String) (amount : ℚ)
  | withdraw (asset : String) (amount : ℚ)
  | buyStock (symbol : String) (qty : ℚ)
  | sellStock (symbol : String) (qty : ℚ)
  | buyCrypto (symbol : String) (qty : ℚ)
  | sellCrypto (symbol : String) (qty : ℚ)
  | buyRealEstate (symbol : String) (qty : ℚ)
  | sellRealEstate (symbol : String) (qty : ℚ)
  | payExpenseWithCash (ev : GameEvent)
  | updateNetWorth
  deriving DecidableEq, Repr

/-- Validation errors, one per distinct toast message in the handlers. -/
inductive Err where
  | invalidInvestment        -- "Invalid investment amount or insufficient cash!"
  | insufficientFundsInvestment -- "Insufficient funds in this investment!"
  | invalidInstrumentOrQuantity -- "Invalid stock/crypto/property or quantity!"
  | insufficientCash         -- "Insufficient cash to buy ...!"
  | notEnoughHoldings        -- "You do not own enough shares/crypto/properties!"
  | invalidSellAmount        -- "Invalid amount to sell!"
  deriving DecidableEq, Repr

/-- `getTotalValue(asset)`: principal plus accrued profit for an asset
(`investments[asset] || 0` plus `investmentProfits[asset] || 0`). -/
def getTotalValue (s : GameState) (asset : String) : ℚ :=
  s.investments asset + s.investmentProfits asset

/-- `getProfitPercentage(asset)`: `0` when the stored principal is `0`,
otherwise `profits / principal * 100`. -/
def getProfitPercentage (s : GameState) (asset : String) : ℚ :=
  let principal := s.investments asset
  let profits := s.investmentProfits asset
  if principal = 0 then 0 else profits / principal * 100

/-- `getOwnedShares(stockSymbol)`: the owned quantity recorded in the
`stockQuantities` map (`|| 0`). -/
def getOwnedShares (s : GameState) (stockSymbol : String) : ℚ :=
  s.stockQuantities stockSymbol

/-- `getOwnedCoins(cryptoSymbol)`: the owned quantity recorded in the
`cryptoQuantities` map (`|| 0`). -/
def getOwnedCoins (s : GameState) (cryptoSymbol : String) : ℚ :=
  s.cryptoQuantities cryptoSymbol

/-- `getOwnedProperties(realEstateSymbol)`: the owned quantity recorded in
the `realEstateQuantities` map (`|| 0`). -/
def getOwnedProperties (s : GameState) (realEstateSymbol : String) : ℚ :=
  s.realEstateQuantities realEstateSymbol

/-- `handleInvest(asset, amount)`: rejects when `amount <= 0 || amount > cash`,
otherwise dispatches `invest` followed by `updateNetWorth`. -/
def handleInvest (s : GameState) (asset : String) (amount : ℚ) :
    Except Err (List Action) :=
  if amount ≤ 0 ∨ amount > s.cash then .error .invalidInvestment
  else .ok [.invest asset amount, .updateNetWorth]

/-- `handleWithdraw(asset, amount)`: rejects when
`getTotalValue(asset) < amount || amount <= 0`, otherwise dispatches
`withdraw` followed by `updateNetWorth`. -/
def handleWithdraw (s : GameState) (asset : String) (amount : ℚ) :
    Except Err (List Action) :=
  if getTotalValue s asset < amount ∨ amount ≤ 0 then
    .error .insufficientFundsInvestment
  else .ok [.withdraw asset amount, .updateNetWorth]

/-- `handleStockBuy(stockSymbol, quantity)`: rejects an unknown symbol or
`quantity <= 0`, rejects when `currentPrice * quantity > cash`, otherwise
dispatches `buyStock`. -/
def handleStockBuy (s : GameState) (stockSymbol : String) (quantity : ℚ) :
    Except Err (List Action) :=
  match s.stocks stockSymbol with
  | none => .error .invalidInstrumentOrQuantity
  | some stock =>
    if quantity ≤ 0 then .error .invalidInstrumentOrQuantity
    else if stock.currentPrice * quantity > s.cash then .error .insufficientCash
    else .ok [.buyStock stockSymbol quantity]

/-- `handleStockSell(stockSymbol, quantity)`: rejects an unknown symbol or
`quantity <= 0`; computes `currentShares = Math.floor(totalValue / currentPrice)`
(the "approximate shares owned" from the investments ledger, NOT the
`stockQuantities` map) and rejects when `quantity > currentShares`; otherwise
dispatches `sellStock`. -/
def handleStockSell (s : GameState) (stockSymbol : String) (quantity : ℚ) :
    Except Err (List Action) :=
  match s.stocks stockSymbol with
  | none => .error .invalidInstrumentOrQuantity
  | some stock =>
    if quantity ≤ 0 then .error .invalidInstrumentOrQuantity
    else
      let totalValue := getTotalValue s stockSymbol
      let currentShares : ℤ := ⌊totalValue / stock.currentPrice⌋
      if quantity > (currentShares : ℚ) then .error .notEnoughHoldings
      else .ok [.sellStock stockSymbol quantity]

/-- `handleCryptoBuy(cryptoSymbol, quantity)`: same structure as
`handleStockBuy` over the `cryptos` map. -/
def handleCryptoBuy (s : GameState) (cryptoSymbol : String) (quantity : ℚ) :
    Except Err (List Action) :=
  match s.cryptos cryptoSymbol with
  | none => .error .invalidInstrumentOrQuantity
  | some crypto =>
    if quantity ≤ 0 then .error .invalidInstrumentOrQuantity
    else if crypto.currentPrice * quantity > s.cash then .error .insufficientCash
    else .ok [.buyCrypto cryptoSymbol quantity]

/-- `handleCryptoSell(cryptoSymbol, quantity)`: same structure as
`handleStockSell` over the `cryptos` map (`currentCoins` approximation). -/
def handleCryptoSell (s : GameState) (cryptoSymbol : String) (quantity : ℚ) :
    Except Err (List Action) :=
  match s.cryptos cryptoSymbol with
  | none => .error .invalidInstrumentOrQuantity
  | some crypto =>
    if quantity ≤ 0 then .error .invalidInstrumentOrQuantity
    else
      let totalValue := getTotalValue s cryptoSymbol
      let currentCoins : ℤ := ⌊totalValue / crypto.currentPrice⌋
      if quantity > (currentCoins : ℚ) then .error .notEnoughHoldings
      else .ok [.sellCrypto cryptoSymbol quantity]

/-- `handleRealEstateBuy(realEstateSymbol, quantity)`: same structure as
`handleStockBuy` over the `realEstates` map. -/
def handleRealEstateBuy (s : GameState) (realEstateSymbol : String) (quantity : ℚ) :
    Except Err (List Action) :=
  match s.realEstates realEstateSymbol with
  | none => .error .invalidInstrumentOrQuantity
  | some realEstate =>
    if quantity ≤ 0 then .error .invalidInstrumentOrQuantity
    else if realEstate.currentPrice * quantity > s.cash then .error .insufficientCash
    else .ok [.buyRealEstate realEstateSymbol quantity]

/-- `handleRealEstateSell(realEstateSymbol, quantity)`: same structure as
`handleStockSell` over the `realEstates` map (`currentProperties`
approximation). -/
def handleRealEstateSell (s : GameState) (realEstateSymbol : String) (quantity : ℚ) :
    Except Err (List Action) :=
  match s.realEstates realEstateSymbol with
  | none => .error .invalidInstrumentOrQuantity
  | some realEstate =>
    if quantity ≤ 0 then .error .invalidInstrumentOrQuantity
    else
      let totalValue := getTotalValue s realEstateSymbol
      let currentProperties : ℤ := ⌊totalValue / realEstate.currentPrice⌋
      if quantity > (currentProperties : ℚ) then .error .notEnoughHoldings
      else .ok [.sellRealEstate realEstateSymbol quantity]

/-- `handleSellInvestment(asset, amount)` (expense-modal settlement): rejects
when `amount > getTotalValue(asset) || amount <= 0`; otherwise dispatches
`withdraw(asset, amount)` and, when the pre-sale cash plus the sale amount
reaches the outstanding event cost (`currentEvent?.cost || 0`), additionally
dispatches `payExpenseWithCash(currentEvent)` (guarded by `currentEvent`
being present). -/
def handleSellInvestment (s : GameState) (asset : String) (amount : ℚ) :
    Except Err (List Action) :=
  let totalValue := getTotalValue s asset
  if amount > totalValue ∨ amount ≤ 0 then .error .invalidSellAmount
  else
    let expenseCost : ℚ := match s.currentEvent with
      | some ev => ev.cost
      | none => 0
    if s.cash + amount ≥ expenseCost then
      .ok ([.withdraw asset amount] ++
        (match s.currentEvent with
         | some ev => [.payExpenseWithCash ev]
         | none => []))
    else .ok [.withdraw asset amount]

/-- The pay-with-cash button of the expense modal: its click handler runs
`currentEvent && payExpenseWithCash(currentEvent)` with no guard on `cash`,
so whenever an event is outstanding it dispatches the payment of the full
event cost unconditionally. -/
def payWithCashIntent (currentEvent : Option GameEvent) : List Action :=
  match currentEvent with
  | some ev => [.payExpenseWithCash ev]
  | none => []

/-- Modelled from the spec: the `payExpenseWithCash` action of the game-state store
action, which lives in `@/lib/store` and is not part of the provided
source.  Per the spec (§4.5 Settlement) it "deducts `event.cost` from cash
unconditionally (cash may go negative — debt is permitted, not an error)
and clears the outstanding event". -/
def storePayExpenseWithCash (s : GameState) (ev : GameEvent) : GameState :=
  { s with cash := s.cash - ev.cost, currentEvent := none }

/-- `updateInvestmentRates` applied to a single option: the random draw
`u = Math.random()` gives `change = (u - 0.5) * 0.2` and the new base
return rate is `Math.max(0, rate * (1 + change))`. -/
def updatedRate (rate u : ℚ) : ℚ :=
  let change := (u - 1/2) * (2/10)
  max 0 (rate * (1 + change))

/-- The year-boundary effect run over a sequence of derived year values:
on each tick, when the derived `year` exceeds the tracked `currentYear`
the rate update (`updateInvestmentRates`) fires once and `currentYear` is
set to `year`; otherwise nothing happens.  Returns the final tracked year
and the total number of rate updates fired. -/
def runYearTicks (currentYear : ℕ) : List ℕ → ℕ × ℕ
  | [] => (currentYear, 0)
  | y :: ys =>
    if y > currentYear then
      ((runYearTicks y ys).1, 1 + (runYearTicks y ys).2)
    else runYearTicks currentYear ys

/-- A tick sequence is gradual from `c` when it is non-decreasing and each
tick advances the derived year by at most one (the regular-tick regime:
no tick jumps past more than one year boundary). -/
def gradual : ℕ → List ℕ → Bool
  | _, [] => true
  | c, y :: ys => (decide (c ≤ y) && decide (y ≤ c + 1)) && gradual y ys

/-- A signed-in user as seen through the auth collaborator. -/
structure User where
  id : String
  deriving DecidableEq, Repr

/-- The game-result record assembled by `saveGameResults`. -/
structure GameResult where
  userId : String
  date : String
  playerScore : ℚ
  aiScore : ℚ
  result : String
  difficulty : String
  deriving DecidableEq, Repr

/-- `saveGameResults`: returns early (saves nothing) when no user is signed
in; otherwise assembles the result record with `playerWon = netWorth >
aiNetWorth` deciding win vs loss.  The wall-clock timestamp
(`new Date().toISOString()`) is an input from the environment. -/
def saveGameResults (user : Option User) (now : String)
    (netWorth aiNetWorth : ℚ) (difficulty : String) : Option GameResult :=
  match user with
  | none => none
  | some u =>
    let playerWon : Bool := decide (netWorth > aiNetWorth)
    some { userId := u.id
           date := now
           playerScore := netWorth
           aiScore := aiNetWorth
           result := if playerWon then "win" else "loss"
           difficulty := difficulty }

/-- One run of the game-over effect on the local state
`(showGameOverModal, number of saves so far)`: when `isGameOver` holds and
the modal flag is still unset, the results are saved once and the flag is
set; otherwise nothing happens. -/
def gameOverStep (isGameOver : Bool) (st : Bool × ℕ) : Bool × ℕ :=
  if isGameOver && !st.1 then (true, st.2 + 1) else st

/-- `progress`: elapsed game time (milliseconds) compressed to `[0, 1]`
over the fixed 10-minute real-time duration
(`Math.min(1, gameTime / (10 * 60 * 1000))`). -/
def progress (t : ℚ) : ℚ := min 1 (t / 600000)

/-- `year = Math.floor(progress * 10)`. -/
def derivedYear (t : ℚ) : ℤ := ⌊progress t * 10⌋

/-- The JS `%` operator on the non-negative operands used here:
`a % b = a - b * Math.floor(a / b)` for `a ≥ 0, b > 0`. -/
def jsMod (a b : ℚ) : ℚ := a - b * ⌊a / b⌋

/-- `currentMonth = Math.floor((progress * 10 * 12) % 12)`. -/
def derivedMonth (t : ℚ) : ℤ := ⌊jsMod (progress t * 10 * 12) 12⌋

/-! ## Concrete store snapshots used to instantiate the theorems -/

/-- A concrete store snapshot: cash 1000, every fixed-rate asset at
principal 300 / profit 200, every instrument priced at 100 with 5 units
recorded in the quantity maps, and an outstanding expense event of cost
1200. -/
def sampleState : GameState where
  cash := 1000
  investments := fun _ => 300
  investmentProfits := fun _ => 200
  stocks := fun y => some ⟨y, 100⟩
  cryptos := fun y => some ⟨y, 100⟩
  realEstates := fun y => some ⟨y, 100⟩
  stockQuantities := fun _ => 5
  cryptoQuantities := fun _ => 5
  realEstateQuantities := fun _ => 5
  currentEvent := some ⟨.expense, "Medical Emergency", 1200⟩

/-- A store snapshot whose investments ledger is empty while the quantity
maps record 5 units of every instrument (priced at 100). -/
def emptyLedgerState : GameState where
  cash := 1000
  investments := fun _ => 0
  investmentProfits := fun _ => 0
  stocks := fun y => some ⟨y, 100⟩
  cryptos := fun y => some ⟨y, 100⟩
  realEstates := fun y => some ⟨y, 100⟩
  stockQuantities := fun _ => 5
  cryptoQuantities := fun _ => 5
  realEstateQuantities := fun _ => 5
  currentEvent := none

/-! ## Theorems -/

/-- C10: the profit-percentage computation is total: when the stored
principal of the asset is `0` it returns `0` (no division by zero is
attempted), and otherwise it returns `profits / principal * 100`. -/
theorem C10_profit_percentage_total (s : GameState) (asset : String) :
    (s.investments asset = 0 → getProfitPercentage s asset = 0) ∧
    (s.investments asset ≠ 0 →
      getProfitPercentage s asset =
        s.investmentProfits asset / s.investments asset * 100) := by
  constructor <;> intro h <;> simp [getProfitPercentage, h]

/-- C10 witness: on the concrete snapshot, principal 300 ≠ 0 and the
percentage evaluates to `200 / 300 * 100`. -/
theorem C10_witness :
    sampleState.investments "savings" ≠ 0 ∧
    getProfitPercentage sampleState "savings" =
      sampleState.investmentProfits "savings" /
        sampleState.investments "savings" * 100 :=
  ⟨by norm_num [sampleState],
   (C10_profit_percentage_total sampleState "savings").2
     (by norm_num [sampleState])⟩

/-- C4: `handleWithdraw` fails with the insufficient-funds error exactly
when the amount exceeds the principal+profit of the asset or is non-positive,
dispatching nothing; for `0 < amount ≤ principal+profit` it dispatches the
`withdraw` action. -/
theorem C4_withdraw_guard (s : GameState) (asset : String) (amount : ℚ) :
    (handleWithdraw s asset amount = .error .insufficientFundsInvestment ↔
      amount > getTotalValue s asset ∨ amount ≤ 0) ∧
    (0 < amount → amount ≤ getTotalValue s asset →
      handleWithdraw s asset amount =
        .ok [.withdraw asset amount, .updateNetWorth]) := by
  unfold handleWithdraw
  constructor
  · by_cases h : getTotalValue s asset < amount ∨ amount ≤ 0 <;>
      simp [h, gt_iff_lt]
  · intro h1 h2
    rw [if_neg]
    push_neg
    exact ⟨h2, h1⟩

/-- C4 witness: withdrawing 100 from an asset worth 500 dispatches the
withdraw action. -/
theorem C4_witness :
    (0:ℚ) < 100 ∧ (100:ℚ) ≤ getTotalValue sampleState "savings" ∧
    handleWithdraw sampleState "savings" 100 =
      .ok [.withdraw "savings" 100, .updateNetWorth] :=
  ⟨by norm_num, by norm_num [getTotalValue, sampleState],
   (C4_withdraw_guard sampleState "savings" 100).2 (by norm_num)
     (by norm_num [getTotalValue, sampleState])⟩

/-- Shared shape of the three buy handlers after the instrument lookup has
succeeded: with a positive price, the result is an error exactly when
`price * qty` is non-positive or exceeds cash, and otherwise it is the
given dispatch list. -/
lemma buy_guard_shape (cash price qty : ℚ) (ok : List Action) (hp : 0 < price) :
    ((∃ e, (if qty ≤ 0 then (.error .invalidInstrumentOrQuantity : Except Err (List Action))
            else if price * qty > cash then .error .insufficientCash
            else .ok ok) = .error e) ↔ price * qty ≤ 0 ∨ price * qty > cash) ∧
    (0 < price * qty → price * qty ≤ cash →
      (if qty ≤ 0 then (.error .invalidInstrumentOrQuantity : Except Err (List Action))
       else if price * qty > cash then .error .insufficientCash
       else .ok ok) = .ok ok) := by
  have hqiff : price * qty ≤ 0 ↔ qty ≤ 0 := by
    constructor <;> intro h <;> nlinarith
  by_cases h0 : qty ≤ 0
  · rw [if_pos h0]
    constructor
    · exact iff_of_true ⟨_, rfl⟩ (Or.inl (hqiff.mpr h0))
    · intro hpos _
      exfalso
      nlinarith
  · rw [if_neg h0]
    by_cases h1 : price * qty > cash
    · rw [if_pos h1]
      constructor
      · exact iff_of_true ⟨_, rfl⟩ (Or.inr h1)
      · intro _ hle
        exfalso
        exact absurd h1 (not_lt.mpr hle)
    · rw [if_neg h1]
      constructor
      · refine iff_of_false (by simp) ?_
        push_neg
        exact ⟨mul_pos hp (not_le.mp h0), not_lt.mp h1⟩
      · intro _ _
        rfl

/-- C3: a purchase intent — `handleInvest` on a fixed-rate asset, or a
buy of `qty` units of a priced instrument (stock, crypto or real estate)
with positive current price — is rejected with an error (dispatching
nothing) exactly when the amount (respectively `price * qty`) is
non-positive or exceeds available cash, and otherwise dispatches the
corresponding store action. -/
theorem C3_purchase_guard (s : GameState) (asset symbol : String)
    (amount qty : ℚ) (inst : PricedInstrument) (hp : 0 < inst.currentPrice) :
    (handleInvest s asset amount = .error .invalidInvestment ↔
      amount ≤ 0 ∨ amount > s.cash) ∧
    (0 < amount → amount ≤ s.cash →
      handleInvest s asset amount = .ok [.invest asset amount, .updateNetWorth]) ∧
    (s.stocks symbol = some inst →
      (((∃ e, handleStockBuy s symbol qty = .error e) ↔
          inst.currentPrice * qty ≤ 0 ∨ inst.currentPrice * qty > s.cash) ∧
        (0 < inst.currentPrice * qty → inst.currentPrice * qty ≤ s.cash →
          handleStockBuy s symbol qty = .ok [.buyStock symbol qty]))) ∧
    (s.cryptos symbol = some inst →
      (((∃ e, handleCryptoBuy s symbol qty = .error e) ↔
          inst.currentPrice * qty ≤ 0 ∨ inst.currentPrice * qty > s.cash) ∧
        (0 < inst.currentPrice * qty → inst.currentPrice * qty ≤ s.cash →
          handleCryptoBuy s symbol qty = .ok [.buyCrypto symbol qty]))) ∧
    (s.realEstates symbol = some inst →
      (((∃ e, handleRealEstateBuy s symbol qty = .error e) ↔
          inst.currentPrice * qty ≤ 0 ∨ inst.currentPrice * qty > s.cash) ∧
        (0 < inst.currentPrice * qty → inst.currentPrice * qty ≤ s.cash →
          handleRealEstateBuy s symbol qty = .ok [.buyRealEstate symbol qty]))) := by
  refine ⟨?_, ?_, ?_, ?_, ?_⟩
  · unfold handleInvest
    by_cases h : amount ≤ 0 ∨ amount > s.cash <;> simp [h]
  · intro h1 h2
    unfold handleInvest
    rw [if_neg]
    push_neg
    exact ⟨h1, h2⟩
  · intro hs
    have he : handleStockBuy s symbol qty =
        (if qty ≤ 0 then (.error .invalidInstrumentOrQuantity : Except Err (List Action))
         else if inst.currentPrice * qty > s.cash then .error .insufficientCash
         else .ok [.buyStock symbol qty]) := by
      unfold handleStockBuy
      rw [hs]
    rw [he]
    exact buy_guard_shape s.cash inst.currentPrice qty [.buyStock symbol qty] hp
  · intro hs
    have he : handleCryptoBuy s symbol qty =
        (if qty ≤ 0 then (.error .invalidInstrumentOrQuantity : Except Err (List Action))
         else if inst.currentPrice * qty > s.cash then .error .insufficientCash
         else .ok [.buyCrypto symbol qty]) := by
      unfold handleCryptoBuy
      rw [hs]
    rw [he]
    exact buy_guard_shape s.cash inst.currentPrice qty [.buyCrypto symbol qty] hp
  · intro hs
    have he : handleRealEstateBuy s symbol qty =
        (if qty ≤ 0 then (.error .invalidInstrumentOrQuantity : Except Err (List Action))
         else if inst.currentPrice * qty > s.cash then .error .insufficientCash
         else .ok [.buyRealEstate symbol qty]) := by
      unfold handleRealEstateBuy
      rw [hs]
    rw [he]
    exact buy_guard_shape s.cash inst.currentPrice qty [.buyRealEstate symbol qty] hp

/-- C3 witness: on the concrete snapshot (cash 1000, price 100), investing
400 dispatches `invest`, and buying 2 shares (cost 200) dispatches
`buyStock`. -/
theorem C3_witness :
    (0:ℚ) < 400 ∧ (400:ℚ) ≤ sampleState.cash ∧
    handleInvest sampleState "savings" 400 =
      .ok [.invest "savings" 400, .updateNetWorth] ∧
    sampleState.stocks "TCS" = some ⟨"TCS", 100⟩ ∧
    handleStockBuy sampleState "TCS" 2 = .ok [.buyStock "TCS" 2] := by
  have h := C3_purchase_guard sampleState "savings" "TCS" 400 2 ⟨"TCS", 100⟩
    (by norm_num)
  exact ⟨by norm_num, by norm_num [sampleState],
    h.2.1 (by norm_num) (by norm_num [sampleState]),
    rfl,
    (h.2.2.1 rfl).2 (by norm_num) (by norm_num [sampleState])⟩

/-- Shared shape of the three sell handlers after the lookup succeeded and
the quantity was found positive: selling fails exactly when the quantity
exceeds the approximate owned count `c`. -/
lemma sell_guard_shape (c : ℚ) (ok : List Action) (qty : ℚ) :
    ((if qty > c then (.error .notEnoughHoldings : Except Err (List Action))
      else .ok ok) = .error .notEnoughHoldings ↔ qty > c) ∧
    (qty ≤ c →
      (if qty > c then (.error .notEnoughHoldings : Except Err (List Action))
       else .ok ok) = .ok ok) := by
  constructor
  · by_cases h : qty > c <;> simp [h]
  · intro h
    rw [if_neg (not_lt.mpr h)]

/-- C1 counterexample: in a state where the `stockQuantities` map records 5
owned shares of "TCS" (price 100) but the investments ledger holds nothing
for it, selling quantity 1 — which is positive and does not exceed the
owned quantity recorded in the quantity map — nevertheless fails with the
not-enough-holdings error, because the handler derives the owned count as
`Math.floor(getTotalValue / currentPrice) = 0` from the investments ledger
and never consults the quantity map. -/
theorem C1_counterexample :
    (0:ℚ) < 1 ∧ (1:ℚ) ≤ getOwnedShares emptyLedgerState "TCS" ∧
    handleStockSell emptyLedgerState "TCS" 1 = .error .notEnoughHoldings := by
  refine ⟨by norm_num, by norm_num [getOwnedShares, emptyLedgerState], ?_⟩
  norm_num [handleStockSell, emptyLedgerState, getTotalValue]

/-- C1 amended: for a priced instrument (stock, crypto or real estate) with
a successful lookup and `qty > 0`, the sell handler fails with the
not-enough-holdings error exactly when `qty` exceeds
`Math.floor((principal + profit) / currentPrice)` — the approximate owned
count recomputed from the investments ledger, not the owned quantity
recorded in the quantity map — and otherwise dispatches the sale. -/
theorem C1_amended_sell_guard (s : GameState) (symbol : String) (qty : ℚ)
    (inst : PricedInstrument) (hq : 0 < qty) :
    (s.stocks symbol = some inst →
      ((handleStockSell s symbol qty = .error .notEnoughHoldings ↔
          qty > ((⌊getTotalValue s symbol / inst.currentPrice⌋ : ℤ) : ℚ)) ∧
        (qty ≤ ((⌊getTotalValue s symbol / inst.currentPrice⌋ : ℤ) : ℚ) →
          handleStockSell s symbol qty = .ok [.sellStock symbol qty]))) ∧
    (s.cryptos symbol = some inst →
      ((handleCryptoSell s symbol qty = .error .notEnoughHoldings ↔
          qty > ((⌊getTotalValue s symbol / inst.currentPrice⌋ : ℤ) : ℚ)) ∧
        (qty ≤ ((⌊getTotalValue s symbol / inst.currentPrice⌋ : ℤ) : ℚ) →
          handleCryptoSell s symbol qty = .ok [.sellCrypto symbol qty]))) ∧
    (s.realEstates symbol = some inst →
      ((handleRealEstateSell s symbol qty = .error .notEnoughHoldings ↔
          qty > ((⌊getTotalValue s symbol / inst.currentPrice⌋ : ℤ) : ℚ)) ∧
        (qty ≤ ((⌊getTotalValue s symbol / inst.currentPrice⌋ : ℤ) : ℚ) →
          handleRealEstateSell s symbol qty = .ok [.sellRealEstate symbol qty]))) := by
  refine ⟨?_, ?_, ?_⟩
  · intro hs
    have he : handleStockSell s symbol qty =
        (if qty ≤ 0 then (.error .invalidInstrumentOrQuantity : Except Err (List Action))
         else if qty > ((⌊getTotalValue s symbol / inst.currentPrice⌋ : ℤ) : ℚ)
         then .error .notEnoughHoldings
         else .ok [.sellStock symbol qty]) := by
      unfold handleStockSell
      rw [hs]
    rw [he, if_neg (not_le.mpr hq)]
    exact sell_guard_shape _ _ qty
  · intro hs
    have he : handleCryptoSell s symbol qty =
        (if qty ≤ 0 then (.error .invalidInstrumentOrQuantity : Except Err (List Action))
         else if qty > ((⌊getTotalValue s symbol / inst.currentPrice⌋ : ℤ) : ℚ)
         then .error .notEnoughHoldings
         else .ok [.sellCrypto symbol qty]) := by
      unfold handleCryptoSell
      rw [hs]
    rw [he, if_neg (not_le.mpr hq)]
    exact sell_guard_shape _ _ qty
  · intro hs
    have he : handleRealEstateSell s symbol qty =
        (if qty ≤ 0 then (.error .invalidInstrumentOrQuantity : Except Err (List Action))
         else if qty > ((⌊getTotalValue s symbol / inst.currentPrice⌋ : ℤ) : ℚ)
         then .error .notEnoughHoldings
         else .ok [.sellRealEstate symbol qty]) := by
      unfold handleRealEstateSell
      rw [hs]
    rw [he, if_neg (not_le.mpr hq)]
    exact sell_guard_shape _ _ qty

/-- C1 witness: selling 2 shares when the ledger-derived owned count is
`Math.floor(500 / 100) = 5` dispatches the sale. -/
theorem C1_witness :
    (0:ℚ) < 2 ∧
    sampleState.stocks "TCS" = some ⟨"TCS", 100⟩ ∧
    (2:ℚ) ≤ ((⌊getTotalValue sampleState "TCS" / (100:ℚ)⌋ : ℤ) : ℚ) ∧
    handleStockSell sampleState "TCS" 2 = .ok [.sellStock "TCS" 2] := by
  have h := (C1_amended_sell_guard sampleState "TCS" 2 ⟨"TCS", 100⟩
    (by norm_num)).1 rfl
  refine ⟨by norm_num, rfl, ?_, ?_⟩
  · norm_num [getTotalValue, sampleState]
  · exact h.2 (by norm_num [getTotalValue, sampleState])

/-- C2 counterexample: a single irregular tick that jumps the derived year
from 0 to 3 crosses three year boundaries but fires the rate update only
once, so the side effect is not applied once per boundary crossed. -/
theorem C2_counterexample :
    (runYearTicks 0 [3]).1 = 3 ∧ (runYearTicks 0 [3]).2 = 1 ∧
    (runYearTicks 0 [3]).2 ≠ 3 := by decide

/-- C2 amended: the rate update never fires more than once per year
boundary (the final tracked year always advances by at least the number of
updates fired), and when every tick advances the derived year by at most
one — the regular-tick regime — it fires exactly once per boundary
crossed; an irregular tick jumping past several boundaries coalesces them
into a single update. -/
theorem C2_amended_year_updates (c : ℕ) (ys : List ℕ) :
    c + (runYearTicks c ys).2 ≤ (runYearTicks c ys).1 ∧
    (gradual c ys = true →
      c + (runYearTicks c ys).2 = (runYearTicks c ys).1) := by
  induction ys generalizing c with
  | nil => simp [runYearTicks]
  | cons y ys ih =>
    by_cases h : y > c
    · obtain ⟨ih1, ih2⟩ := ih y
      simp only [runYearTicks, if_pos h]
      constructor
      · omega
      · intro hg
        simp only [gradual, Bool.and_eq_true, decide_eq_true_eq] at hg
        have heq := ih2 hg.2
        omega
    · obtain ⟨ih1, ih2⟩ := ih c
      simp only [runYearTicks, if_neg h]
      refine ⟨ih1, ?_⟩
      intro hg
      simp only [gradual, Bool.and_eq_true, decide_eq_true_eq] at hg
      have hyc : y = c := le_antisymm (not_lt.mp h) hg.1.1
      exact ih2 (hyc ▸ hg.2)

/-- C2 witness: the gradual tick sequence 0, 1, 1, 2 fires exactly two
updates, one per boundary crossed, and none twice. -/
theorem C2_witness :
    gradual 0 [0, 1, 1, 2] = true ∧
    (runYearTicks 0 [0, 1, 1, 2]).2 = 2 ∧
    0 + (runYearTicks 0 [0, 1, 1, 2]).2 = (runYearTicks 0 [0, 1, 1, 2]).1 :=
  ⟨by decide, by decide,
   (C2_amended_year_updates 0 [0, 1, 1, 2]).2 (by decide)⟩

/-- C5: paying an outstanding expense event with cash is permitted
unconditionally: for every cash level (the intent does not read `cash` at
all, so in particular also when `cash < event.cost`) the pay-with-cash
intent dispatches payment of the full event cost, and the store action it
dispatches deducts the full cost (cash may go negative) and clears the
outstanding event. -/
theorem C5_pay_with_cash_unconditional (s : GameState) (ev : GameEvent)
    (h : s.currentEvent = some ev) :
    payWithCashIntent s.currentEvent = [.payExpenseWithCash ev] ∧
    (storePayExpenseWithCash s ev).cash = s.cash - ev.cost ∧
    (storePayExpenseWithCash s ev).currentEvent = none := by
  refine ⟨?_, rfl, rfl⟩
  rw [h]
  rfl

/-- C5 witness: with cash 1000 and an outstanding expense of cost 1200,
the intent still dispatches the full payment and the resulting cash is
the debt −200. -/
theorem C5_witness :
    sampleState.cash < 1200 ∧
    payWithCashIntent sampleState.currentEvent =
      [.payExpenseWithCash ⟨.expense, "Medical Emergency", 1200⟩] ∧
    (storePayExpenseWithCash sampleState
      ⟨.expense, "Medical Emergency", 1200⟩).cash = -200 ∧
    (storePayExpenseWithCash sampleState
      ⟨.expense, "Medical Emergency", 1200⟩).currentEvent = none := by
  have h := C5_pay_with_cash_unconditional sampleState
    ⟨.expense, "Medical Emergency", 1200⟩ rfl
  refine ⟨by norm_num [sampleState], h.1, ?_, h.2.2⟩
  rw [h.2.1]
  norm_num [sampleState]

/-- C6: with an outstanding event, selling an investment to pay fails with
the invalid-amount error exactly when the amount exceeds the principal+profit of the
asset or is non-positive; for a valid amount it dispatches the
withdrawal and additionally dispatches the cash payment of the event if
and only if the pre-sale cash plus the sale amount reaches the event cost
(a partial sale below the cost leaves the event outstanding). -/
theorem C6_sell_and_pay (s : GameState) (asset : String) (amount : ℚ)
    (ev : GameEvent) (hev : s.currentEvent = some ev) :
    (handleSellInvestment s asset amount = .error .invalidSellAmount ↔
      amount > getTotalValue s asset ∨ amount ≤ 0) ∧
    (0 < amount → amount ≤ getTotalValue s asset →
      handleSellInvestment s asset amount =
        .ok (if s.cash + amount ≥ ev.cost
             then [.withdraw asset amount, .payExpenseWithCash ev]
             else [.withdraw asset amount])) := by
  have he : handleSellInvestment s asset amount =
      (if amount > getTotalValue s asset ∨ amount ≤ 0
       then (.error .invalidSellAmount : Except Err (List Action))
       else if s.cash + amount ≥ ev.cost
         then .ok [.withdraw asset amount, .payExpenseWithCash ev]
         else .ok [.withdraw asset amount]) := by
    unfold handleSellInvestment
    rw [hev]
    rfl
  rw [he]
  constructor
  · by_cases h : amount > getTotalValue s asset ∨ amount ≤ 0
    · rw [if_pos h]
      exact iff_of_true rfl h
    · rw [if_neg h]
      refine iff_of_false ?_ h
      by_cases h2 : s.cash + amount ≥ ev.cost
      · rw [if_pos h2]
        simp
      · rw [if_neg h2]
        simp
  · intro h1 h2
    rw [if_neg (by push_neg; exact ⟨h2, h1⟩)]
    by_cases h3 : s.cash + amount ≥ ev.cost
    · rw [if_pos h3, if_pos h3]
    · rw [if_neg h3, if_neg h3]

/-- C6 witness: with cash 1000, an asset worth 500 and an outstanding
expense of cost 1200, selling 300 reaches 1000 + 300 ≥ 1200, so the
withdrawal and the automatic cash payment are both dispatched. -/
theorem C6_witness :
    sampleState.currentEvent = some ⟨.expense, "Medical Emergency", 1200⟩ ∧
    (0:ℚ) < 300 ∧ (300:ℚ) ≤ getTotalValue sampleState "savings" ∧
    handleSellInvestment sampleState "savings" 300 =
      .ok [.withdraw "savings" 300,
           .payExpenseWithCash ⟨.expense, "Medical Emergency", 1200⟩] := by
  have h := (C6_sell_and_pay sampleState "savings" 300
    ⟨.expense, "Medical Emergency", 1200⟩ rfl).2 (by norm_num)
    (by norm_num [getTotalValue, sampleState])
  refine ⟨rfl, by norm_num, by norm_num [getTotalValue, sampleState], ?_⟩
  rw [h, if_pos (by norm_num [sampleState])]

/-- C7: at a year boundary, a fixed-rate class with current rate `r ≥ 0`
and random draw `u ∈ [0, 1)` gets the updated rate
`max(0, r * (1 + (u - 0.5) * 0.2))`, which equals
`r * (1 + (u - 0.5) * 0.2)` and always lies within ±10% relative of `r`
(in `[0.9 * r, 1.1 * r]`), hence is never negative. -/
theorem C7_rate_update (r u : ℚ) (hr : 0 ≤ r) (hu0 : 0 ≤ u) (hu1 : u < 1) :
    updatedRate r u = r * (1 + (u - 1/2) * (2/10)) ∧
    9/10 * r ≤ updatedRate r u ∧
    updatedRate r u ≤ 11/10 * r ∧
    0 ≤ updatedRate r u := by
  have key : 0 ≤ r * (1 + (u - 1/2) * (2/10)) := by
    nlinarith [mul_nonneg hr hu0]
  have h1 : updatedRate r u = r * (1 + (u - 1/2) * (2/10)) := by
    unfold updatedRate
    exact max_eq_right key
  refine ⟨h1, ?_, ?_, ?_⟩
  · rw [h1]
    nlinarith [mul_nonneg hr hu0]
  · rw [h1]
    nlinarith [mul_nonneg hr (by linarith : (0:ℚ) ≤ 1 - u)]
  · rw [h1]
    exact key

/-- C7 witness: at rate 4 and the central draw `u = 1/2` the updated rate
is exactly 4 and the ±10% bounds hold. -/
theorem C7_witness :
    (0:ℚ) ≤ 4 ∧ (0:ℚ) ≤ 1/2 ∧ (1/2:ℚ) < 1 ∧
    updatedRate 4 (1/2) = 4 * (1 + (1/2 - 1/2) * (2/10)) ∧
    9/10 * 4 ≤ updatedRate 4 (1/2) ∧ updatedRate 4 (1/2) ≤ 11/10 * 4 := by
  have h := C7_rate_update 4 (1/2) (by norm_num) (by norm_num) (by norm_num)
  exact ⟨by norm_num, by norm_num, by norm_num, h.1, h.2.1, h.2.2.1⟩

/-- C8: for a signed-in user, the recorded game result carries the player
net worth as player score, the AI net worth as AI score, the difficulty and
the timestamp, with outcome `"win"` exactly when the player net worth
strictly exceeds the AI net worth (equality is recorded as `"loss"`); and
the game-over effect saves the record exactly once no matter how often it
re-runs after the game-over flag becomes true. -/
theorem C8_game_result (u : User) (now : String) (netWorth aiNetWorth : ℚ)
    (difficulty : String) (n : ℕ) (hn : 1 ≤ n) :
    saveGameResults (some u) now netWorth aiNetWorth difficulty =
      some { userId := u.id, date := now, playerScore := netWorth,
             aiScore := aiNetWorth,
             result := if netWorth > aiNetWorth then "win" else "loss",
             difficulty := difficulty } ∧
    ((if netWorth > aiNetWorth then "win" else "loss") = "win" ↔
      netWorth > aiNetWorth) ∧
    (gameOverStep true)^[n] (false, 0) = (true, 1) := by
  refine ⟨?_, ?_, ?_⟩
  · simp [saveGameResults]
  · by_cases h : netWorth > aiNetWorth
    · simp [h]
    · simp [h]
  · obtain ⟨m, rfl⟩ : ∃ m, n = m + 1 := ⟨n - 1, by omega⟩
    rw [Function.iterate_succ_apply]
    have h0 : gameOverStep true (false, 0) = (true, 1) := rfl
    rw [h0]
    exact Function.iterate_fixed rfl m

/-- C8 witness: at equal net worths (100 vs 100) the outcome recorded is
`"loss"`, and three re-runs of the game-over effect save exactly once. -/
theorem C8_witness :
    saveGameResults (some ⟨"u1"⟩) "2026-01-01" 100 100 "easy" =
      some { userId := "u1", date := "2026-01-01", playerScore := 100,
             aiScore := 100, result := "loss", difficulty := "easy" } ∧
    (gameOverStep true)^[3] (false, 0) = (true, 1) := by
  have h := C8_game_result ⟨"u1"⟩ "2026-01-01" 100 100 "easy" 3 (by norm_num)
  refine ⟨?_, h.2.2⟩
  rw [h.1]
  norm_num

/-- For `0 ≤ a` and `0 < b` the JS remainder is non-negative. -/
lemma jsMod_nonneg (a b : ℚ) (hb : 0 < b) : 0 ≤ jsMod a b := by
  unfold jsMod
  have h1 : ((⌊a / b⌋ : ℤ) : ℚ) ≤ a / b := Int.floor_le (a / b)
  have h2 : b * ((⌊a / b⌋ : ℤ) : ℚ) ≤ b * (a / b) :=
    mul_le_mul_of_nonneg_left h1 hb.le
  have h3 : b * (a / b) = a := by
    field_simp
  linarith

/-- The JS remainder is below the modulus. -/
lemma jsMod_lt (a b : ℚ) (hb : 0 < b) : jsMod a b < b := by
  unfold jsMod
  have h1 : a / b < ((⌊a / b⌋ : ℤ) : ℚ) + 1 := Int.lt_floor_add_one (a / b)
  have h2 : a / b * b < (((⌊a / b⌋ : ℤ) : ℚ) + 1) * b :=
    mul_lt_mul_of_pos_right h1 hb
  have h3 : a / b * b = a := div_mul_cancel₀ a hb.ne'
  have h4 : (((⌊a / b⌋ : ℤ) : ℚ) + 1) * b = b * ((⌊a / b⌋ : ℤ) : ℚ) + b := by
    ring
  linarith

/-- C9 counterexample: the derived month is not monotone non-decreasing in
elapsed time up to the cap: at t = 55000 ms the month is 11 while at the
later t = 60000 ms (a year boundary) it wraps to 0. -/
theorem C9_counterexample :
    (0:ℚ) ≤ 55000 ∧ (55000:ℚ) ≤ 60000 ∧ (60000:ℚ) ≤ 600000 ∧
    derivedMonth 55000 = 11 ∧ derivedMonth 60000 = 0 ∧
    ¬ derivedMonth 55000 ≤ derivedMonth 60000 := by
  norm_num [derivedMonth, jsMod, progress]

/-- C9 amended: for every elapsed time `t ≥ 0` the derived year equals
`⌊min(1, t/600000) * 10⌋` and the derived month equals
`⌊(min(1, t/600000) * 120) mod 12⌋`; the year is always in [0, 10], the
month is always in [0, 11], the year (but not the month, which wraps
modulo 12 at each year boundary) is monotone non-decreasing in `t`, and
`t = 600000` (the fixed 10-minute duration) maps to year 10. -/
theorem C9_amended_time_derivation (t t₁ t₂ : ℚ) (ht : 0 ≤ t) (h12 : t₁ ≤ t₂) :
    derivedYear t = ⌊min 1 (t / 600000) * 10⌋ ∧
    derivedMonth t = ⌊jsMod (min 1 (t / 600000) * 120) 12⌋ ∧
    0 ≤ derivedYear t ∧ derivedYear t ≤ 10 ∧
    0 ≤ derivedMonth t ∧ derivedMonth t ≤ 11 ∧
    derivedYear t₁ ≤ derivedYear t₂ ∧
    derivedYear 600000 = 10 := by
  have hp0 : 0 ≤ progress t := le_min (by norm_num) (div_nonneg ht (by norm_num))
  have hp1 : progress t ≤ 1 := min_le_left _ _
  have hmod0 : 0 ≤ jsMod (progress t * 10 * 12) 12 :=
    jsMod_nonneg _ _ (by norm_num)
  have hmodlt : jsMod (progress t * 10 * 12) 12 < 12 :=
    jsMod_lt _ _ (by norm_num)
  refine ⟨rfl, ?_, ?_, ?_, ?_, ?_, ?_, ?_⟩
  · have harg : progress t * 10 * 12 = min 1 (t / 600000) * 120 := by
      unfold progress
      ring
    unfold derivedMonth
    rw [harg]
  · exact Int.floor_nonneg.mpr (mul_nonneg hp0 (by norm_num))
  · calc derivedYear t ≤ ⌊(10:ℚ)⌋ := Int.floor_mono (by linarith)
      _ = 10 := by norm_num
  · exact Int.floor_nonneg.mpr hmod0
  · have hlt : derivedMonth t < 12 := Int.floor_lt.mpr (by exact_mod_cast hmodlt)
    omega
  · have hd : t₁ / (600000:ℚ) ≤ t₂ / 600000 := by gcongr
    have hp : progress t₁ ≤ progress t₂ := min_le_min le_rfl hd
    exact Int.floor_mono (by linarith)
  · show (⌊min (1:ℚ) ((600000:ℚ) / 600000) * 10⌋ : ℤ) = 10
    norm_num

/-- C9 witness: at t = 300000 (mid-game) the derived year is within
[0, 10] and the month within [0, 11], the year is monotone between
t = 100 and t = 200, and t = 600000 maps to year 10. -/
theorem C9_witness :
    (0:ℚ) ≤ 300000 ∧ (100:ℚ) ≤ 200 ∧
    0 ≤ derivedYear 300000 ∧ derivedYear 300000 ≤ 10 ∧
    0 ≤ derivedMonth 300000 ∧ derivedMonth 300000 ≤ 11 ∧
    derivedYear 100 ≤ derivedYear 200 ∧ derivedYear 600000 = 10 := by
  have h := C9_amended_time_derivation 300000 100 200 (by norm_num) (by norm_num)
  exact ⟨by norm_num, by norm_num, h.2.2.1, h.2.2.2.1, h.2.2.2.2.1,
    h.2.2.2.2.2.1, h.2.2.2.2.2.2.1, h.2.2.2.2.2.2.2⟩

end InveSim
